import Mathlib

/-!
Formalisation of the update core of `mqtt2victron`: the two bridge scripts
`gridmeter/MQTTtoGridMeter.py` and `pvmeter/MQTTtoPV.py`. Measurement
payloads are modelled as `Option ℚ` (`none` is a payload on which Python's
`float(...)` raises, `some v` a payload parsing as the number `v`);
MQTT topics are strings; the module-level measurement globals and the
values stored in the dbus service paths form one explicit state record.
-/

namespace Mqtt2Victron

/-- Round a rational to the nearest integer, ties to even — the behaviour
of Python 3's built-in `round`. -/
def pyRoundInt (q : ℚ) : ℤ :=
  if q - (⌊q⌋ : ℚ) < 1/2 then ⌊q⌋
  else if (1 : ℚ)/2 < q - (⌊q⌋ : ℚ) then ⌊q⌋ + 1
  else if ⌊q⌋ % 2 = 0 then ⌊q⌋ else ⌊q⌋ + 1

/-- Python's `round(q, nd)` for `nd` decimal digits. -/
def pyRound (nd : ℕ) (q : ℚ) : ℚ :=
  (pyRoundInt (q * (10 : ℚ) ^ nd) : ℚ) / (10 : ℚ) ^ nd

example : pyRound 2 (300 / 230) = 13 / 10 := by
  norm_num [pyRound, pyRoundInt]
example : pyRound 2 (-5 / 230) = -(1 / 50) := by
  norm_num [pyRound, pyRoundInt]
example : pyRound 3 (5000 / 1000) = 5 := by
  norm_num [pyRound, pyRoundInt]

/-- `if not new is None: store = new` — overwrite the stored value when the
measurement is known, keep the previous stored value otherwise. -/
def orKeep (new old : Option ℚ) : Option ℚ :=
  match new with
  | some v => some v
  | none => old

/-- `if not new is None: store = f(new)` — write a value derived from the
measurement when it is known, keep the previous stored value otherwise. -/
def mapKeep (f : ℚ → ℚ) (new old : Option ℚ) : Option ℚ :=
  match new with
  | some v => some (f v)
  | none => old

/-- Publish the measurement when known, a configured default otherwise
(the entry is always written). -/
def orElseD (new : Option ℚ) (d : ℚ) : Option ℚ :=
  match new with
  | some v => some v
  | none => some d

@[simp] theorem orKeep_some (v : ℚ) (old : Option ℚ) :
    orKeep (some v) old = some v := rfl

@[simp] theorem orKeep_none (old : Option ℚ) : orKeep none old = old := rfl

@[simp] theorem mapKeep_some (f : ℚ → ℚ) (v : ℚ) (old : Option ℚ) :
    mapKeep f (some v) old = some (f v) := rfl

@[simp] theorem mapKeep_none (f : ℚ → ℚ) (old : Option ℚ) :
    mapKeep f none old = old := rfl

@[simp] theorem orElseD_some (v d : ℚ) : orElseD (some v) d = some v := rfl

@[simp] theorem orElseD_none (d : ℚ) : orElseD none d = some d := rfl

@[simp] theorem orKeep_orKeep (n o : Option ℚ) :
    orKeep n (orKeep n o) = orKeep n o := by cases n <;> rfl

@[simp] theorem mapKeep_mapKeep (f : ℚ → ℚ) (n o : Option ℚ) :
    mapKeep f n (mapKeep f n o) = mapKeep f n o := by cases n <;> rfl

/-- `index = index + 1; if index > 255: index = 0` — the revision-counter
step shared by both services. -/
def bump (i : ℕ) : ℕ := if i + 1 > 255 then 0 else i + 1

namespace Grid

/-- `MQTT_PATH` of `MQTTtoGridMeter.py`. -/
def MQTT_PATH : String := "k4/power/meter"

/-- The module-level measurement globals of `MQTTtoGridMeter.py` together
with the values stored at the dbus service paths written by `_update`.
All measurement fields and exposed entries start as `None`;
`/UpdateIndex` starts at `0`. -/
@[ext]
structure State where
  power_sum : Option ℚ := none
  power_l1 : Option ℚ := none
  power_l2 : Option ℚ := none
  power_l3 : Option ℚ := none
  energy_180 : Option ℚ := none
  energy_280 : Option ℚ := none
  acPower : Option ℚ := none
  acL1Power : Option ℚ := none
  acL2Power : Option ℚ := none
  acL3Power : Option ℚ := none
  acEnergyForward : Option ℚ := none
  acEnergyReverse : Option ℚ := none
  acL1Voltage : Option ℚ := none
  acL2Voltage : Option ℚ := none
  acL3Voltage : Option ℚ := none
  acL1Current : Option ℚ := none
  acL2Current : Option ℚ := none
  acL3Current : Option ℚ := none
  updateIndex : ℕ := 0
  deriving DecidableEq, Repr

/-- The state at process start. -/
def initState : State := {}

/-- `DbusDummyService._update` of `MQTTtoGridMeter.py`: publish every
derivable exposed entry from the measurement globals and bump
`/UpdateIndex`. -/
def update (s : State) : State :=
  { s with
    acPower := orKeep s.power_sum s.acPower,
    acL1Power := orKeep s.power_l1 s.acL1Power,
    acL2Power := orKeep s.power_l2 s.acL2Power,
    acL3Power := orKeep s.power_l3 s.acL3Power,
    acEnergyForward := orKeep s.energy_180 s.acEnergyForward,
    acEnergyReverse := orKeep s.energy_280 s.acEnergyReverse,
    acL1Voltage := some 230,
    acL2Voltage := some 230,
    acL3Voltage := some 230,
    acL1Current := mapKeep (fun p => pyRound 2 (p / 230)) s.power_l1 s.acL1Current,
    acL2Current := mapKeep (fun p => pyRound 2 (p / 230)) s.power_l2 s.acL2Current,
    acL3Current := mapKeep (fun p => pyRound 2 (p / 230)) s.power_l3 s.acL3Current,
    updateIndex := bump s.updateIndex }

/-- `on_message` of `MQTTtoGridMeter.py`. A payload on which `float(...)`
raises is `none`: the `except` swallows the error before `_update` is
reached, so the state is returned unchanged. An unrecognized topic falls
through the `elif` chain and still calls `_update`. -/
def onMessage (s : State) (topic : String) (payload : Option ℚ) : State :=
  if topic = MQTT_PATH ++ "/power" then
    match payload with
    | some v => update { s with power_sum := some v, power_l1 := some (v / 3),
                                power_l2 := some (v / 3), power_l3 := some (v / 3) }
    | none => s
  else if topic = MQTT_PATH ++ "/p_l1" then
    match payload with
    | some v => update { s with power_l1 := some v }
    | none => s
  else if topic = MQTT_PATH ++ "/p_l2" then
    match payload with
    | some v => update { s with power_l2 := some v }
    | none => s
  else if topic = MQTT_PATH ++ "/p_l3" then
    match payload with
    | some v => update { s with power_l3 := some v }
    | none => s
  else if topic = MQTT_PATH ++ "/180" then
    match payload with
    | some v => update { s with energy_180 := some (pyRound 3 (v / 1000)) }
    | none => s
  else if topic = MQTT_PATH ++ "/280" then
    match payload with
    | some v => update { s with energy_280 := some (pyRound 3 (v / 1000)) }
    | none => s
  else update s

/-- The six topics recognized by the grid meter's `on_message`. -/
def isMeasurementTopic (t : String) : Prop :=
  t = MQTT_PATH ++ "/power" ∨ t = MQTT_PATH ++ "/p_l1" ∨
  t = MQTT_PATH ++ "/p_l2" ∨ t = MQTT_PATH ++ "/p_l3" ∨
  t = MQTT_PATH ++ "/180" ∨ t = MQTT_PATH ++ "/280"

instance (t : String) : Decidable (isMeasurementTopic t) :=
  inferInstanceAs (Decidable (_ ∨ _ ∨ _ ∨ _ ∨ _ ∨ _))

/-- Deliver a list of `(topic, payload)` events in order. -/
def run (s : State) (evs : List (String × Option ℚ)) : State :=
  evs.foldl (fun st e => onMessage st e.1 e.2) s

@[simp] theorem update_power_sum (s : State) : (update s).power_sum = s.power_sum := rfl

@[simp] theorem update_power_l1 (s : State) : (update s).power_l1 = s.power_l1 := rfl

@[simp] theorem update_power_l2 (s : State) : (update s).power_l2 = s.power_l2 := rfl

@[simp] theorem update_power_l3 (s : State) : (update s).power_l3 = s.power_l3 := rfl

@[simp] theorem update_energy_180 (s : State) : (update s).energy_180 = s.energy_180 := rfl

@[simp] theorem update_energy_280 (s : State) : (update s).energy_280 = s.energy_280 := rfl

@[simp] theorem update_acPower (s : State) :
    (update s).acPower = orKeep s.power_sum s.acPower := rfl

@[simp] theorem update_acL1Power (s : State) :
    (update s).acL1Power = orKeep s.power_l1 s.acL1Power := rfl

@[simp] theorem update_acL2Power (s : State) :
    (update s).acL2Power = orKeep s.power_l2 s.acL2Power := rfl

@[simp] theorem update_acL3Power (s : State) :
    (update s).acL3Power = orKeep s.power_l3 s.acL3Power := rfl

@[simp] theorem update_acEnergyForward (s : State) :
    (update s).acEnergyForward = orKeep s.energy_180 s.acEnergyForward := rfl

@[simp] theorem update_acEnergyReverse (s : State) :
    (update s).acEnergyReverse = orKeep s.energy_280 s.acEnergyReverse := rfl

@[simp] theorem update_acL1Voltage (s : State) : (update s).acL1Voltage = some 230 := rfl

@[simp] theorem update_acL2Voltage (s : State) : (update s).acL2Voltage = some 230 := rfl

@[simp] theorem update_acL3Voltage (s : State) : (update s).acL3Voltage = some 230 := rfl

@[simp] theorem update_acL1Current (s : State) :
    (update s).acL1Current
      = mapKeep (fun p => pyRound 2 (p / 230)) s.power_l1 s.acL1Current := rfl

@[simp] theorem update_acL2Current (s : State) :
    (update s).acL2Current
      = mapKeep (fun p => pyRound 2 (p / 230)) s.power_l2 s.acL2Current := rfl

@[simp] theorem update_acL3Current (s : State) :
    (update s).acL3Current
      = mapKeep (fun p => pyRound 2 (p / 230)) s.power_l3 s.acL3Current := rfl

@[simp] theorem update_updateIndex (s : State) :
    (update s).updateIndex = bump s.updateIndex := rfl

theorem onMessage_power (s : State) (v : ℚ) :
    onMessage s (MQTT_PATH ++ "/power") (some v)
      = update { s with power_sum := some v, power_l1 := some (v / 3),
                        power_l2 := some (v / 3), power_l3 := some (v / 3) } := by
  simp [onMessage, MQTT_PATH]

theorem onMessage_p_l1 (s : State) (v : ℚ) :
    onMessage s (MQTT_PATH ++ "/p_l1") (some v)
      = update { s with power_l1 := some v } := by
  simp [onMessage, MQTT_PATH]

theorem onMessage_p_l2 (s : State) (v : ℚ) :
    onMessage s (MQTT_PATH ++ "/p_l2") (some v)
      = update { s with power_l2 := some v } := by
  simp [onMessage, MQTT_PATH]

theorem onMessage_p_l3 (s : State) (v : ℚ) :
    onMessage s (MQTT_PATH ++ "/p_l3") (some v)
      = update { s with power_l3 := some v } := by
  simp [onMessage, MQTT_PATH]

theorem onMessage_180 (s : State) (v : ℚ) :
    onMessage s (MQTT_PATH ++ "/180") (some v)
      = update { s with energy_180 := some (pyRound 3 (v / 1000)) } := by
  simp [onMessage, MQTT_PATH]

theorem onMessage_280 (s : State) (v : ℚ) :
    onMessage s (MQTT_PATH ++ "/280") (some v)
      = update { s with energy_280 := some (pyRound 3 (v / 1000)) } := by
  simp [onMessage, MQTT_PATH]

theorem onMessage_unrecognized (s : State) (t : String) (p : Option ℚ)
    (h : ¬ isMeasurementTopic t) : onMessage s t p = update s := by
  simp only [isMeasurementTopic] at h
  push_neg at h
  obtain ⟨h1, h2, h3, h4, h5, h6⟩ := h
  simp [onMessage, h1, h2, h3, h4, h5, h6]

theorem onMessage_parse_failure (s : State) (t : String)
    (h : isMeasurementTopic t) : onMessage s t none = s := by
  rcases h with h | h | h | h | h | h <;> subst h <;> simp [onMessage, MQTT_PATH]

theorem onMessage_updateIndex (s : State) (t : String) (v : ℚ)
    (h : isMeasurementTopic t) :
    (onMessage s t (some v)).updateIndex = bump s.updateIndex := by
  rcases h with h | h | h | h | h | h <;> subst h <;>
    simp [onMessage, MQTT_PATH]

theorem update_update (s : State) :
    update (update s)
      = { update s with updateIndex := bump (update s).updateIndex } := by
  ext <;> simp

end Grid

theorem bump_le (i : ℕ) (h : i ≤ 255) : bump i ≤ 255 := by
  unfold bump
  split <;> omega

theorem bump_eq_mod (i : ℕ) (h : i ≤ 255) : bump i = (i + 1) % 256 := by
  unfold bump
  split <;> omega

theorem bump_of_lt (i : ℕ) (h : i < 255) : bump i = i + 1 := by
  unfold bump
  split <;> omega

theorem bump_255 : bump 255 = 0 := rfl

namespace Grid

/-- A well-formed event: a recognized grid topic whose payload parses. -/
def ValidEvent (e : String × Option ℚ) : Prop :=
  isMeasurementTopic e.1 ∧ e.2.isSome

instance (e : String × Option ℚ) : Decidable (ValidEvent e) :=
  inferInstanceAs (Decidable (_ ∧ _))

theorem run_updateIndex (evs : List (String × Option ℚ))
    (hv : ∀ e ∈ evs, ValidEvent e) (s : State) (hs : s.updateIndex ≤ 255) :
    (run s evs).updateIndex = (s.updateIndex + evs.length) % 256 := by
  induction evs generalizing s with
  | nil =>
    simpa [run] using by omega
  | cons e rest ih =>
    obtain ⟨ht, hp⟩ := hv e (List.mem_cons_self e rest)
    obtain ⟨v, hv2⟩ := Option.isSome_iff_exists.mp hp
    have hstep : (onMessage s e.1 e.2).updateIndex = bump s.updateIndex := by
      rw [hv2]
      exact onMessage_updateIndex s e.1 v ht
    have h1 : (run s (e :: rest)) = run (onMessage s e.1 e.2) rest := rfl
    rw [h1, ih (fun x hx => hv x (List.mem_cons_of_mem e hx)) _
      (by rw [hstep]; exact bump_le _ hs)]
    rw [hstep, bump_eq_mod _ hs, List.length_cons]
    omega

end Grid

theorem strApp_ne (s : String) {a b : String} (h : a ≠ b) : s ++ a ≠ s ++ b := by
  intro he
  apply h
  have hd : s.data ++ a.data = s.data ++ b.data := by
    rw [← String.data_append, ← String.data_append, he]
  exact String.ext (List.append_cancel_left hd)

namespace PV

/-- The configuration values of `MQTTtoPV.py` consumed by the update core:
the MQTT topic, and the nominal voltage and frequency from
`config["DEFAULT"]`. -/
structure Config where
  topic : String
  voltage : ℚ
  frequency : ℚ
  deriving DecidableEq, Repr

/-- The module-level measurement globals of `MQTTtoPV.py` together with the
values stored at the dbus service paths written by `_update`. All
measurement fields and exposed entries start as `None`; `/UpdateIndex`
starts at `0`, `/StatusCode` at `0`. -/
@[ext]
structure State where
  power : Option ℚ := none
  voltage : Option ℚ := none
  current : Option ℚ := none
  frequency : Option ℚ := none
  energy_180 : Option ℚ := none
  energy_280 : Option ℚ := none
  acPower : Option ℚ := none
  acCurrent : Option ℚ := none
  acVoltage : Option ℚ := none
  acEnergyForward : Option ℚ := none
  acL1Power : Option ℚ := none
  acL1Current : Option ℚ := none
  acL1Voltage : Option ℚ := none
  acL1Frequency : Option ℚ := none
  acL1EnergyForward : Option ℚ := none
  updateIndex : ℕ := 0
  statusCode : ℤ := 0
  deriving DecidableEq, Repr

/-- The state at process start. -/
def initState : State := {}

/-- The current entry: a measured current when known, otherwise
`power / nominal_voltage` when power is known (note: NOT rounded),
otherwise the entry keeps its previous value. -/
def currentFallback (current power : Option ℚ) (nomV : ℚ) (old : Option ℚ) : Option ℚ :=
  match current with
  | some c => some c
  | none =>
    match power with
    | some p => some (p / nomV)
    | none => old

@[simp] theorem currentFallback_some (c : ℚ) (power : Option ℚ) (nomV : ℚ) (old : Option ℚ) :
    currentFallback (some c) power nomV old = some c := rfl

@[simp] theorem currentFallback_none_some (p nomV : ℚ) (old : Option ℚ) :
    currentFallback none (some p) nomV old = some (p / nomV) := rfl

@[simp] theorem currentFallback_none_none (nomV : ℚ) (old : Option ℚ) :
    currentFallback none none nomV old = old := rfl

/-- The entry-publication part of `DbusDummyService._update` of
`MQTTtoPV.py` (everything before the status-code block), including the
`/UpdateIndex` bump. -/
def publish (cfg : Config) (s : State) : State :=
  { s with
    acPower := orKeep s.power s.acPower,
    acCurrent := currentFallback s.current s.power cfg.voltage s.acCurrent,
    acVoltage := orElseD s.voltage cfg.voltage,
    acEnergyForward := orElseD s.energy_280 0,
    acL1Power := orKeep s.power s.acL1Power,
    acL1Current := currentFallback s.current s.power cfg.voltage s.acL1Current,
    acL1Voltage := orElseD s.voltage cfg.voltage,
    acL1Frequency := orElseD s.frequency cfg.frequency,
    acL1EnergyForward := orElseD s.energy_280 0,
    updateIndex := bump s.updateIndex }

/-- `DbusDummyService._update` of `MQTTtoPV.py`: the entry publication,
then the status-code block, which reads the just-written `/Ac/Power`
entry and writes `/StatusCode` only when the target differs from the
currently published value. The returned boolean records whether the
`/StatusCode` entry was written on this pass. (The inner `none` case is
unreachable: when `power` is known the `/Ac/Power` entry was just
assigned; in Python a `None` comparison would raise and be swallowed by
the `except` in `on_message`, leaving the state as already written.) -/
def update (cfg : Config) (s : State) : State × Bool :=
  match s.power with
  | some _ =>
    match (publish cfg s).acPower with
    | some ap =>
      if 10 ≤ ap then
        if (publish cfg s).statusCode ≠ 7 then ({ publish cfg s with statusCode := 7 }, true)
        else (publish cfg s, false)
      else
        if (publish cfg s).statusCode ≠ 8 then ({ publish cfg s with statusCode := 8 }, true)
        else (publish cfg s, false)
    | none => (publish cfg s, false)
  | none =>
    if (publish cfg s).statusCode ≠ 8 then ({ publish cfg s with statusCode := 8 }, true)
    else (publish cfg s, false)

/-- `on_message` of `MQTTtoPV.py`. A payload on which `float(...)` raises
is `none`: the `except` swallows the error before `_update` is reached,
so the state is returned unchanged. An unrecognized topic falls through
the `elif` chain and still calls `_update`. -/
def onMessage (cfg : Config) (s : State) (topic : String) (payload : Option ℚ) : State :=
  if topic = cfg.topic ++ "/power" then
    match payload with
    | some v => (update cfg { s with power := some (-1 * v) }).1
    | none => s
  else if topic = cfg.topic ++ "/voltage" then
    match payload with
    | some v => (update cfg { s with voltage := some v }).1
    | none => s
  else if topic = cfg.topic ++ "/current" then
    match payload with
    | some v => (update cfg { s with current := some (-1 * v) }).1
    | none => s
  else if topic = cfg.topic ++ "/frequency" then
    match payload with
    | some v => (update cfg { s with frequency := some v }).1
    | none => s
  else if topic = cfg.topic ++ "/energy_180" then
    match payload with
    | some v => (update cfg { s with energy_180 := some (v / 1000) }).1
    | none => s
  else if topic = cfg.topic ++ "/energy_280" then
    match payload with
    | some v => (update cfg { s with energy_280 := some (v / 1000) }).1
    | none => s
  else (update cfg s).1

/-- The six topics recognized by the PV meter's `on_message`. -/
def isMeasurementTopic (cfg : Config) (t : String) : Prop :=
  t = cfg.topic ++ "/power" ∨ t = cfg.topic ++ "/voltage" ∨
  t = cfg.topic ++ "/current" ∨ t = cfg.topic ++ "/frequency" ∨
  t = cfg.topic ++ "/energy_180" ∨ t = cfg.topic ++ "/energy_280"

instance (cfg : Config) (t : String) : Decidable (isMeasurementTopic cfg t) :=
  inferInstanceAs (Decidable (_ ∨ _ ∨ _ ∨ _ ∨ _ ∨ _))

/-- Deliver a list of `(topic, payload)` events in order. -/
def run (cfg : Config) (s : State) (evs : List (String × Option ℚ)) : State :=
  evs.foldl (fun st e => onMessage cfg st e.1 e.2) s

@[simp] theorem publish_power (cfg : Config) (s : State) :
    (publish cfg s).power = s.power := rfl

@[simp] theorem publish_voltage (cfg : Config) (s : State) :
    (publish cfg s).voltage = s.voltage := rfl

@[simp] theorem publish_current (cfg : Config) (s : State) :
    (publish cfg s).current = s.current := rfl

@[simp] theorem publish_frequency (cfg : Config) (s : State) :
    (publish cfg s).frequency = s.frequency := rfl

@[simp] theorem publish_energy_180 (cfg : Config) (s : State) :
    (publish cfg s).energy_180 = s.energy_180 := rfl

@[simp] theorem publish_energy_280 (cfg : Config) (s : State) :
    (publish cfg s).energy_280 = s.energy_280 := rfl

@[simp] theorem publish_acPower (cfg : Config) (s : State) :
    (publish cfg s).acPower = orKeep s.power s.acPower := rfl

@[simp] theorem publish_acCurrent (cfg : Config) (s : State) :
    (publish cfg s).acCurrent
      = currentFallback s.current s.power cfg.voltage s.acCurrent := rfl

@[simp] theorem publish_acVoltage (cfg : Config) (s : State) :
    (publish cfg s).acVoltage = orElseD s.voltage cfg.voltage := rfl

@[simp] theorem publish_acEnergyForward (cfg : Config) (s : State) :
    (publish cfg s).acEnergyForward = orElseD s.energy_280 0 := rfl

@[simp] theorem publish_acL1Power (cfg : Config) (s : State) :
    (publish cfg s).acL1Power = orKeep s.power s.acL1Power := rfl

@[simp] theorem publish_acL1Current (cfg : Config) (s : State) :
    (publish cfg s).acL1Current
      = currentFallback s.current s.power cfg.voltage s.acL1Current := rfl

@[simp] theorem publish_acL1Voltage (cfg : Config) (s : State) :
    (publish cfg s).acL1Voltage = orElseD s.voltage cfg.voltage := rfl

@[simp] theorem publish_acL1Frequency (cfg : Config) (s : State) :
    (publish cfg s).acL1Frequency = orElseD s.frequency cfg.frequency := rfl

@[simp] theorem publish_acL1EnergyForward (cfg : Config) (s : State) :
    (publish cfg s).acL1EnergyForward = orElseD s.energy_280 0 := rfl

@[simp] theorem publish_updateIndex (cfg : Config) (s : State) :
    (publish cfg s).updateIndex = bump s.updateIndex := rfl

@[simp] theorem publish_statusCode (cfg : Config) (s : State) :
    (publish cfg s).statusCode = s.statusCode := rfl

/-- The status value the status-code block aims at on a given pass. -/
def statusTarget (power : Option ℚ) : ℤ :=
  match power with
  | some p => if 10 ≤ p then 7 else 8
  | none => 8

/-- `_update` always ends the pass with the status entry at the target
value, and every other component as written by the publication part. -/
theorem update_fst (cfg : Config) (s : State) :
    (update cfg s).1 = { publish cfg s with statusCode := statusTarget s.power } := by
  cases hp : s.power with
  | none =>
    simp only [update, hp, statusTarget]
    split
    · rfl
    · next h =>
      ext <;> simp_all
  | some p =>
    have hap : (publish cfg s).acPower = some p := by simp [hp]
    simp only [update, hp, hap, statusTarget]
    split
    · split
      · rfl
      · next h => ext <;> simp_all
    · split
      · rfl
      · next h => ext <;> simp_all

/-- The status entry is written on a pass exactly when the target differs
from the currently published status. -/
theorem update_snd (cfg : Config) (s : State) :
    (update cfg s).2 = true ↔ statusTarget s.power ≠ s.statusCode := by
  cases hp : s.power with
  | none =>
    simp only [update, hp, statusTarget]
    split <;> simp_all <;> omega
  | some p =>
    have hap : (publish cfg s).acPower = some p := by simp [hp]
    simp only [update, hp, hap, statusTarget]
    split
    · split <;> simp_all <;> omega
    · split <;> simp_all <;> omega

theorem onMsg_power (cfg : Config) (s : State) (v : ℚ) :
    onMessage cfg s (cfg.topic ++ "/power") (some v)
      = (update cfg { s with power := some (-1 * v) }).1 := by
  simp [onMessage]

theorem onMessage_voltage (cfg : Config) (s : State) (v : ℚ) :
    onMessage cfg s (cfg.topic ++ "/voltage") (some v)
      = (update cfg { s with voltage := some v }).1 := by
  have h1 : cfg.topic ++ "/voltage" ≠ cfg.topic ++ "/power" := strApp_ne _ (by decide)
  simp [onMessage, h1]

theorem onMessage_current (cfg : Config) (s : State) (v : ℚ) :
    onMessage cfg s (cfg.topic ++ "/current") (some v)
      = (update cfg { s with current := some (-1 * v) }).1 := by
  have h1 : cfg.topic ++ "/current" ≠ cfg.topic ++ "/power" := strApp_ne _ (by decide)
  have h2 : cfg.topic ++ "/current" ≠ cfg.topic ++ "/voltage" := strApp_ne _ (by decide)
  simp [onMessage, h1, h2]

theorem onMessage_frequency (cfg : Config) (s : State) (v : ℚ) :
    onMessage cfg s (cfg.topic ++ "/frequency") (some v)
      = (update cfg { s with frequency := some v }).1 := by
  have h1 : cfg.topic ++ "/frequency" ≠ cfg.topic ++ "/power" := strApp_ne _ (by decide)
  have h2 : cfg.topic ++ "/frequency" ≠ cfg.topic ++ "/voltage" := strApp_ne _ (by decide)
  have h3 : cfg.topic ++ "/frequency" ≠ cfg.topic ++ "/current" := strApp_ne _ (by decide)
  simp [onMessage, h1, h2, h3]

theorem onMessage_energy180 (cfg : Config) (s : State) (v : ℚ) :
    onMessage cfg s (cfg.topic ++ "/energy_180") (some v)
      = (update cfg { s with energy_180 := some (v / 1000) }).1 := by
  have h1 : cfg.topic ++ "/energy_180" ≠ cfg.topic ++ "/power" := strApp_ne _ (by decide)
  have h2 : cfg.topic ++ "/energy_180" ≠ cfg.topic ++ "/voltage" := strApp_ne _ (by decide)
  have h3 : cfg.topic ++ "/energy_180" ≠ cfg.topic ++ "/current" := strApp_ne _ (by decide)
  have h4 : cfg.topic ++ "/energy_180" ≠ cfg.topic ++ "/frequency" := strApp_ne _ (by decide)
  simp [onMessage, h1, h2, h3, h4]

theorem onMessage_energy280 (cfg : Config) (s : State) (v : ℚ) :
    onMessage cfg s (cfg.topic ++ "/energy_280") (some v)
      = (update cfg { s with energy_280 := some (v / 1000) }).1 := by
  have h1 : cfg.topic ++ "/energy_280" ≠ cfg.topic ++ "/power" := strApp_ne _ (by decide)
  have h2 : cfg.topic ++ "/energy_280" ≠ cfg.topic ++ "/voltage" := strApp_ne _ (by decide)
  have h3 : cfg.topic ++ "/energy_280" ≠ cfg.topic ++ "/current" := strApp_ne _ (by decide)
  have h4 : cfg.topic ++ "/energy_280" ≠ cfg.topic ++ "/frequency" := strApp_ne _ (by decide)
  have h5 : cfg.topic ++ "/energy_280" ≠ cfg.topic ++ "/energy_180" := strApp_ne _ (by decide)
  simp [onMessage, h1, h2, h3, h4, h5]

theorem onMsg_unrecognized (cfg : Config) (s : State) (t : String) (p : Option ℚ)
    (h : ¬ isMeasurementTopic cfg t) : onMessage cfg s t p = (update cfg s).1 := by
  simp only [isMeasurementTopic] at h
  push_neg at h
  obtain ⟨h1, h2, h3, h4, h5, h6⟩ := h
  simp [onMessage, h1, h2, h3, h4, h5, h6]

theorem onMsg_parse_failure (cfg : Config) (s : State) (t : String)
    (h : isMeasurementTopic cfg t) : onMessage cfg s t none = s := by
  have n1 : cfg.topic ++ "/voltage" ≠ cfg.topic ++ "/power" := strApp_ne _ (by decide)
  have n2 : cfg.topic ++ "/current" ≠ cfg.topic ++ "/power" := strApp_ne _ (by decide)
  have n3 : cfg.topic ++ "/current" ≠ cfg.topic ++ "/voltage" := strApp_ne _ (by decide)
  have n4 : cfg.topic ++ "/frequency" ≠ cfg.topic ++ "/power" := strApp_ne _ (by decide)
  have n5 : cfg.topic ++ "/frequency" ≠ cfg.topic ++ "/voltage" := strApp_ne _ (by decide)
  have n6 : cfg.topic ++ "/frequency" ≠ cfg.topic ++ "/current" := strApp_ne _ (by decide)
  have n7 : cfg.topic ++ "/energy_180" ≠ cfg.topic ++ "/power" := strApp_ne _ (by decide)
  have n8 : cfg.topic ++ "/energy_180" ≠ cfg.topic ++ "/voltage" := strApp_ne _ (by decide)
  have n9 : cfg.topic ++ "/energy_180" ≠ cfg.topic ++ "/current" := strApp_ne _ (by decide)
  have n10 : cfg.topic ++ "/energy_180" ≠ cfg.topic ++ "/frequency" := strApp_ne _ (by decide)
  have n11 : cfg.topic ++ "/energy_280" ≠ cfg.topic ++ "/power" := strApp_ne _ (by decide)
  have n12 : cfg.topic ++ "/energy_280" ≠ cfg.topic ++ "/voltage" := strApp_ne _ (by decide)
  have n13 : cfg.topic ++ "/energy_280" ≠ cfg.topic ++ "/current" := strApp_ne _ (by decide)
  have n14 : cfg.topic ++ "/energy_280" ≠ cfg.topic ++ "/frequency" := strApp_ne _ (by decide)
  have n15 : cfg.topic ++ "/energy_280" ≠ cfg.topic ++ "/energy_180" := strApp_ne _ (by decide)
  rcases h with h | h | h | h | h | h <;> subst h <;>
    simp [onMessage, n1, n2, n3, n4, n5, n6, n7, n8, n9, n10, n11, n12, n13, n14, n15]

theorem onMsg_updateIndex (cfg : Config) (s : State) (t : String) (v : ℚ)
    (h : isMeasurementTopic cfg t) :
    (onMessage cfg s t (some v)).updateIndex = bump s.updateIndex := by
  rcases h with h | h | h | h | h | h <;> subst h
  · rw [onMsg_power, update_fst]; simp
  · rw [onMessage_voltage, update_fst]; simp
  · rw [onMessage_current, update_fst]; simp
  · rw [onMessage_frequency, update_fst]; simp
  · rw [onMessage_energy180, update_fst]; simp
  · rw [onMessage_energy280, update_fst]; simp

/-- A well-formed event: a recognized PV topic whose payload parses. -/
def ValidEvent (cfg : Config) (e : String × Option ℚ) : Prop :=
  isMeasurementTopic cfg e.1 ∧ e.2.isSome

instance (cfg : Config) (e : String × Option ℚ) : Decidable (ValidEvent cfg e) :=
  inferInstanceAs (Decidable (_ ∧ _))

theorem runPV_updateIndex (cfg : Config) (evs : List (String × Option ℚ))
    (hv : ∀ e ∈ evs, ValidEvent cfg e) (s : State) (hs : s.updateIndex ≤ 255) :
    (run cfg s evs).updateIndex = (s.updateIndex + evs.length) % 256 := by
  induction evs generalizing s with
  | nil =>
    simpa [run] using by omega
  | cons e rest ih =>
    obtain ⟨ht, hp⟩ := hv e (List.mem_cons_self e rest)
    obtain ⟨v, hv2⟩ := Option.isSome_iff_exists.mp hp
    have hstep : (onMessage cfg s e.1 e.2).updateIndex = bump s.updateIndex := by
      rw [hv2]
      exact onMsg_updateIndex cfg s e.1 v ht
    have h1 : (run cfg s (e :: rest)) = run cfg (onMessage cfg s e.1 e.2) rest := rfl
    rw [h1, ih (fun x hx => hv x (List.mem_cons_of_mem e hx)) _
      (by rw [hstep]; exact bump_le _ hs)]
    rw [hstep, bump_eq_mod _ hs, List.length_cons]
    omega

end PV

/-! ## Claim theorems -/

/-- C1 counterexample: after a direct `/p_l1` reading of 500, a later
aggregate `/power` event of 900 DOES overwrite the measured phase-1 power
with the one-third split 300 — the measured value is not permanent. -/
theorem claim1_counterexample :
    (Grid.onMessage (Grid.onMessage Grid.initState (Grid.MQTT_PATH ++ "/p_l1") (some 500))
        (Grid.MQTT_PATH ++ "/power") (some 900)).power_l1 = some 300
    ∧ (Grid.onMessage (Grid.onMessage Grid.initState (Grid.MQTT_PATH ++ "/p_l1") (some 500))
        (Grid.MQTT_PATH ++ "/power") (some 900)).power_l1 ≠ some 500 := by
  rw [Grid.onMessage_p_l1, Grid.onMessage_power]
  norm_num

/-- C1 amended: an aggregate-power event always sets all three per-phase
power fields to aggregate/3, whether or not a real per-phase reading has
arrived before; a direct per-phase reading (e.g. `/p_l1`) overrides the
synthesized value for that field, but only until the next aggregate-power
event. -/
theorem claim1_amended :
    (∀ (s : Grid.State) (v : ℚ),
      (Grid.onMessage s (Grid.MQTT_PATH ++ "/power") (some v)).power_sum = some v
      ∧ (Grid.onMessage s (Grid.MQTT_PATH ++ "/power") (some v)).power_l1 = some (v / 3)
      ∧ (Grid.onMessage s (Grid.MQTT_PATH ++ "/power") (some v)).power_l2 = some (v / 3)
      ∧ (Grid.onMessage s (Grid.MQTT_PATH ++ "/power") (some v)).power_l3 = some (v / 3))
    ∧ (∀ (s : Grid.State) (w : ℚ),
      (Grid.onMessage s (Grid.MQTT_PATH ++ "/p_l1") (some w)).power_l1 = some w
      ∧ (Grid.onMessage s (Grid.MQTT_PATH ++ "/p_l1") (some w)).power_l2 = s.power_l2
      ∧ (Grid.onMessage s (Grid.MQTT_PATH ++ "/p_l1") (some w)).power_l3 = s.power_l3
      ∧ (Grid.onMessage s (Grid.MQTT_PATH ++ "/p_l1") (some w)).power_sum = s.power_sum) := by
  constructor
  · intro s v
    rw [Grid.onMessage_power]
    simp
  · intro s w
    rw [Grid.onMessage_p_l1]
    simp

/-- C2 counterexample: a `/energy_180` event of 5000 Wh sets the
forward-energy field to 5 kWh, yet the exposed `/Ac/Energy/Forward` and
`/Ac/L1/Energy/Forward` entries read 0 — the exposed forward entries are
not fed from the `/energy_180` field. -/
theorem claim2_counterexample :
    (PV.onMessage ⟨"pv", 230, 50⟩ PV.initState ((⟨"pv", 230, 50⟩ : PV.Config).topic ++ "/energy_180")
        (some 5000)).energy_180 = some 5
    ∧ (PV.onMessage ⟨"pv", 230, 50⟩ PV.initState ((⟨"pv", 230, 50⟩ : PV.Config).topic ++ "/energy_180")
        (some 5000)).acEnergyForward = some 0
    ∧ (PV.onMessage ⟨"pv", 230, 50⟩ PV.initState ((⟨"pv", 230, 50⟩ : PV.Config).topic ++ "/energy_180")
        (some 5000)).acL1EnergyForward = some 0
    ∧ (some (0 : ℚ) ≠ some (5 : ℚ)) := by
  rw [PV.onMessage_energy180, PV.update_fst]
  refine ⟨by simp [PV.initState]; norm_num, by simp [PV.initState], by simp [PV.initState], by norm_num⟩

/-- C2 amended: the forward-energy exposed entries (`/Ac/Energy/Forward`
and `/Ac/L1/Energy/Forward`) are fed from the reverse-energy field (the
`/energy_280` topic, value Wh/1000): the field value is published when
known, and 0 is published when it is unknown (rather than leaving the
entry unknown). -/
theorem claim2_amended :
    ∀ (cfg : PV.Config) (s : PV.State),
      (∀ e : ℚ, s.energy_280 = some e →
        (PV.update cfg s).1.acEnergyForward = some e
        ∧ (PV.update cfg s).1.acL1EnergyForward = some e)
      ∧ (s.energy_280 = none →
        (PV.update cfg s).1.acEnergyForward = some 0
        ∧ (PV.update cfg s).1.acL1EnergyForward = some 0)
      ∧ (∀ v : ℚ,
        (PV.onMessage cfg s (cfg.topic ++ "/energy_280") (some v)).energy_280 = some (v / 1000)
        ∧ (PV.onMessage cfg s (cfg.topic ++ "/energy_280") (some v)).acEnergyForward
            = some (v / 1000)) := by
  intro cfg s
  refine ⟨?_, ?_, ?_⟩
  · intro e he
    rw [PV.update_fst]
    simp [he]
  · intro he
    rw [PV.update_fst]
    simp [he]
  · intro v
    rw [PV.onMessage_energy280, PV.update_fst]
    simp

/-- C2 amended witness at a concrete input. -/
theorem claim2_amended_witness :
    (PV.update ⟨"pv", 230, 50⟩ { PV.initState with energy_280 := some 7 }).1.acEnergyForward = some 7
    ∧ (PV.update ⟨"pv", 230, 50⟩ PV.initState).1.acEnergyForward = some 0 := by
  refine ⟨((claim2_amended ⟨"pv", 230, 50⟩ _).1 7 rfl).1, ((claim2_amended ⟨"pv", 230, 50⟩ _).2.1 rfl).1⟩

/-- C3: a parse failure on a recognized measurement topic aborts the whole
pass: the state — every measurement field, every exposed entry and the
revision counter — is returned unchanged, in both services. -/
theorem claim3_parse_failure_atomic :
    (∀ (s : Grid.State) (t : String), Grid.isMeasurementTopic t →
      Grid.onMessage s t none = s)
    ∧ (∀ (cfg : PV.Config) (s : PV.State) (t : String), PV.isMeasurementTopic cfg t →
      PV.onMessage cfg s t none = s) := by
  exact ⟨Grid.onMessage_parse_failure, PV.onMsg_parse_failure⟩

/-- C3 witness at concrete inputs. -/
theorem claim3_parse_failure_atomic_witness :
    Grid.onMessage Grid.initState (Grid.MQTT_PATH ++ "/power") none = Grid.initState
    ∧ PV.onMessage ⟨"pv", 230, 50⟩ PV.initState ("pv" ++ "/power") none = PV.initState := by
  exact ⟨claim3_parse_failure_atomic.1 _ _ (by decide),
    claim3_parse_failure_atomic.2 ⟨"pv", 230, 50⟩ _ _ (by decide)⟩

/-- C4: on every successfully parsed measurement event the `/UpdateIndex`
value stays in [0,255], increments by exactly 1 modulo 256, wraps from 255
to 0 and otherwise strictly increases by 1; over any sequence of valid
events from process start it equals the number of events modulo 256 — in
both services. -/
theorem claim4_revision_counter :
    (∀ (s : Grid.State) (t : String) (v : ℚ), Grid.isMeasurementTopic t →
      s.updateIndex ≤ 255 →
      (Grid.onMessage s t (some v)).updateIndex ≤ 255
      ∧ (Grid.onMessage s t (some v)).updateIndex = (s.updateIndex + 1) % 256
      ∧ (s.updateIndex = 255 → (Grid.onMessage s t (some v)).updateIndex = 0)
      ∧ (s.updateIndex < 255 →
          (Grid.onMessage s t (some v)).updateIndex = s.updateIndex + 1))
    ∧ (∀ evs : List (String × Option ℚ), (∀ e ∈ evs, Grid.ValidEvent e) →
      (Grid.run Grid.initState evs).updateIndex = evs.length % 256)
    ∧ (∀ (cfg : PV.Config) (s : PV.State) (t : String) (v : ℚ),
      PV.isMeasurementTopic cfg t → s.updateIndex ≤ 255 →
      (PV.onMessage cfg s t (some v)).updateIndex ≤ 255
      ∧ (PV.onMessage cfg s t (some v)).updateIndex = (s.updateIndex + 1) % 256
      ∧ (s.updateIndex = 255 → (PV.onMessage cfg s t (some v)).updateIndex = 0)
      ∧ (s.updateIndex < 255 →
          (PV.onMessage cfg s t (some v)).updateIndex = s.updateIndex + 1))
    ∧ (∀ (cfg : PV.Config) (evs : List (String × Option ℚ)),
      (∀ e ∈ evs, PV.ValidEvent cfg e) →
      (PV.run cfg PV.initState evs).updateIndex = evs.length % 256) := by
  refine ⟨?_, ?_, ?_, ?_⟩
  · intro s t v ht hs
    rw [Grid.onMessage_updateIndex s t v ht]
    exact ⟨bump_le _ hs, bump_eq_mod _ hs,
      fun h => by rw [h]; rfl, fun h => bump_of_lt _ h⟩
  · intro evs hv
    have h0 : Grid.initState.updateIndex ≤ 255 := by decide
    rw [Grid.run_updateIndex evs hv Grid.initState h0]
    simp [Grid.initState]
  · intro cfg s t v ht hs
    rw [PV.onMsg_updateIndex cfg s t v ht]
    exact ⟨bump_le _ hs, bump_eq_mod _ hs,
      fun h => by rw [h]; rfl, fun h => bump_of_lt _ h⟩
  · intro cfg evs hv
    have h0 : PV.initState.updateIndex ≤ 255 := by decide
    rw [PV.runPV_updateIndex cfg evs hv PV.initState h0]
    simp [PV.initState]

/-- C4 witness at concrete inputs. -/
theorem claim4_revision_counter_witness :
    (Grid.onMessage Grid.initState (Grid.MQTT_PATH ++ "/power") (some 1)).updateIndex = 0 + 1
    ∧ (Grid.run Grid.initState [(Grid.MQTT_PATH ++ "/power", some 1),
        (Grid.MQTT_PATH ++ "/p_l1", some 2)]).updateIndex = 2 % 256
    ∧ (PV.onMessage ⟨"pv", 230, 50⟩ PV.initState ("pv" ++ "/power") (some 1)).updateIndex = 0 + 1
    ∧ (PV.run ⟨"pv", 230, 50⟩ PV.initState
        [("pv" ++ "/voltage", some 230)]).updateIndex = 1 % 256 := by
  refine ⟨(claim4_revision_counter.1 Grid.initState _ 1 (by decide) (by decide)).2.2.2 (by decide),
    claim4_revision_counter.2.1 _ (by decide),
    (claim4_revision_counter.2.2.1 ⟨"pv", 230, 50⟩ PV.initState _ 1 (by decide) (by decide)).2.2.2
      (by decide),
    claim4_revision_counter.2.2.2 ⟨"pv", 230, 50⟩ _ (by decide)⟩

/-- C5: on every pass the published `/StatusCode` becomes 7 (Running) when
power is known and at least 10 W, and 8 (Standby) when power is known and
below 10 W or unknown; no other value results from this logic; and the
entry is written on a pass exactly when the computed state differs from
the currently published one. -/
theorem claim5_status_code :
    ∀ (cfg : PV.Config) (s : PV.State),
      ((PV.update cfg s).1.statusCode = 7 ∨ (PV.update cfg s).1.statusCode = 8)
      ∧ (∀ p : ℚ, s.power = some p →
          (PV.update cfg s).1.statusCode = (if 10 ≤ p then 7 else 8))
      ∧ (s.power = none → (PV.update cfg s).1.statusCode = 8)
      ∧ ((PV.update cfg s).2 = true ↔ (PV.update cfg s).1.statusCode ≠ s.statusCode) := by
  intro cfg s
  have hfst : (PV.update cfg s).1.statusCode = PV.statusTarget s.power := by
    rw [PV.update_fst]
  refine ⟨?_, ?_, ?_, ?_⟩
  · rw [hfst]
    cases hp : s.power with
    | none => right; rfl
    | some p =>
      by_cases h : 10 ≤ p
      · left; simp [PV.statusTarget, h]
      · right; simp [PV.statusTarget, h]
  · intro p hp
    rw [hfst]
    simp [PV.statusTarget, hp]
  · intro hp
    rw [hfst]
    simp [PV.statusTarget, hp]
  · rw [hfst]
    exact PV.update_snd cfg s

/-- C5 witness: from Standby with 20 W known the first pass writes 7, and
the immediately following pass (power still 20 W) does not write again. -/
theorem claim5_status_code_witness :
    (PV.update ⟨"pv", 230, 50⟩ { PV.initState with power := some 20, statusCode := 8 }).1.statusCode = 7
    ∧ (PV.update ⟨"pv", 230, 50⟩ { PV.initState with power := some 20, statusCode := 8 }).2 = true
    ∧ (PV.update ⟨"pv", 230, 50⟩
        (PV.update ⟨"pv", 230, 50⟩ { PV.initState with power := some 20, statusCode := 8 }).1).2
        = false := by
  have h1 := (claim5_status_code ⟨"pv", 230, 50⟩
    { PV.initState with power := some 20, statusCode := 8 }).2.1 20 rfl
  rw [if_pos (by norm_num)] at h1
  have h2 := (claim5_status_code ⟨"pv", 230, 50⟩
    { PV.initState with power := some 20, statusCode := 8 }).2.2.2
  have h3 := (claim5_status_code ⟨"pv", 230, 50⟩
    (PV.update ⟨"pv", 230, 50⟩ { PV.initState with power := some 20, statusCode := 8 }).1)
  refine ⟨h1, ?_, ?_⟩
  · rw [h2, h1]
    decide
  · have hpow : (PV.update ⟨"pv", 230, 50⟩
        { PV.initState with power := some 20, statusCode := 8 }).1.power = some 20 := by
      rw [PV.update_fst]
      rfl
    have h4 := h3.2.1 20 hpow
    rw [if_pos (by norm_num)] at h4
    have h5 := h3.2.2.2
    rw [h4, h1] at h5
    simpa using h5

/-- C6 counterexample: for power payload "5" (stored as −5) with no
measured current and nominal voltage 230, the exposed current is exactly
−5/230, which differs from round(−5/230, 2) — the fallback current is not
rounded. -/
theorem claim6_counterexample :
    (PV.onMessage ⟨"pv", 230, 50⟩ PV.initState ((⟨"pv", 230, 50⟩ : PV.Config).topic ++ "/power")
        (some 5)).acCurrent = some (-5 / 230)
    ∧ (-5 / 230 : ℚ) ≠ pyRound 2 (-5 / 230) := by
  constructor
  · rw [PV.onMsg_power, PV.update_fst]
    simp [PV.initState]
  · norm_num [pyRound, pyRoundInt]

/-- C6 amended: when the current field is unknown and the power field is
known, the exposed current (aggregate and L1) equals power divided by the
configured nominal voltage, NOT rounded; in particular for power payload
"5" with nominal voltage 230 it equals −5/230 exactly. -/
theorem claim6_amended :
    ∀ (cfg : PV.Config) (s : PV.State) (p : ℚ), s.current = none → s.power = some p →
      (PV.update cfg s).1.acCurrent = some (p / cfg.voltage)
      ∧ (PV.update cfg s).1.acL1Current = some (p / cfg.voltage) := by
  intro cfg s p hc hp
  rw [PV.update_fst]
  simp [hc, hp]

/-- C6 amended witness at the concrete input of the claim. -/
theorem claim6_amended_witness :
    (PV.update ⟨"pv", 230, 50⟩ { PV.initState with power := some (-5) }).1.acCurrent
      = some (-5 / 230) := by
  exact (claim6_amended ⟨"pv", 230, 50⟩ { PV.initState with power := some (-5) } (-5) rfl rfl).1

/-- C7: on every grid-meter pass the three phase voltages are published as
the constant 230, and each phase current is published as phase power / 230
rounded to 2 decimals exactly when that phase power is known (the entry
keeps its previous value when it is unknown). -/
theorem claim7_grid_derivation :
    ∀ s : Grid.State,
      (Grid.update s).acL1Voltage = some 230
      ∧ (Grid.update s).acL2Voltage = some 230
      ∧ (Grid.update s).acL3Voltage = some 230
      ∧ (∀ p : ℚ, s.power_l1 = some p →
          (Grid.update s).acL1Current = some (pyRound 2 (p / 230)))
      ∧ (s.power_l1 = none → (Grid.update s).acL1Current = s.acL1Current)
      ∧ (∀ p : ℚ, s.power_l2 = some p →
          (Grid.update s).acL2Current = some (pyRound 2 (p / 230)))
      ∧ (s.power_l2 = none → (Grid.update s).acL2Current = s.acL2Current)
      ∧ (∀ p : ℚ, s.power_l3 = some p →
          (Grid.update s).acL3Current = some (pyRound 2 (p / 230)))
      ∧ (s.power_l3 = none → (Grid.update s).acL3Current = s.acL3Current) := by
  intro s
  refine ⟨rfl, rfl, rfl, ?_, ?_, ?_, ?_, ?_, ?_⟩ <;> intro h <;> try intro hh
  all_goals simp_all

/-- C7 witness: a single aggregate-power event of 900 yields phase
currents of 1.30 on all three phases and phase voltages of 230. -/
theorem claim7_grid_derivation_witness :
    (Grid.onMessage Grid.initState (Grid.MQTT_PATH ++ "/power") (some 900)).acL1Current
      = some (13 / 10)
    ∧ (Grid.onMessage Grid.initState (Grid.MQTT_PATH ++ "/power") (some 900)).acL2Current
      = some (13 / 10)
    ∧ (Grid.onMessage Grid.initState (Grid.MQTT_PATH ++ "/power") (some 900)).acL3Current
      = some (13 / 10)
    ∧ (Grid.onMessage Grid.initState (Grid.MQTT_PATH ++ "/power") (some 900)).acL1Voltage
      = some 230 := by
  rw [Grid.onMessage_power]
  have h := claim7_grid_derivation
    { Grid.initState with power_sum := some 900, power_l1 := some (900 / 3),
                          power_l2 := some (900 / 3), power_l3 := some (900 / 3) }
  have hr : pyRound 2 (900 / 3 / 230) = 13 / 10 := by
    norm_num [pyRound, pyRoundInt]
  refine ⟨?_, ?_, ?_, h.1⟩
  · rw [h.2.2.2.1 (900 / 3) rfl, hr]
  · rw [h.2.2.2.2.2.1 (900 / 3) rfl, hr]
  · rw [h.2.2.2.2.2.2.2.1 (900 / 3) rfl, hr]

/-- C8: on every PV pass the voltage entries (`/Ac/Voltage` and
`/Ac/L1/Voltage`) are published — the measured voltage when known, the
configured nominal voltage otherwise — and likewise `/Ac/L1/Frequency`
gets the measured frequency or the configured nominal frequency. -/
theorem claim8_pv_voltage_frequency :
    ∀ (cfg : PV.Config) (s : PV.State),
      (s.voltage = none →
        (PV.update cfg s).1.acVoltage = some cfg.voltage
        ∧ (PV.update cfg s).1.acL1Voltage = some cfg.voltage)
      ∧ (∀ v : ℚ, s.voltage = some v →
        (PV.update cfg s).1.acVoltage = some v
        ∧ (PV.update cfg s).1.acL1Voltage = some v)
      ∧ (s.frequency = none → (PV.update cfg s).1.acL1Frequency = some cfg.frequency)
      ∧ (∀ fr : ℚ, s.frequency = some fr →
        (PV.update cfg s).1.acL1Frequency = some fr) := by
  intro cfg s
  rw [PV.update_fst]
  exact ⟨fun h => ⟨by simp [h], by simp [h]⟩,
    fun v h => ⟨by simp [h], by simp [h]⟩,
    fun h => by simp [h],
    fun fr h => by simp [h]⟩

/-- C8 witness at concrete inputs. -/
theorem claim8_pv_voltage_frequency_witness :
    (PV.update ⟨"pv", 230, 50⟩ PV.initState).1.acVoltage = some 230
    ∧ (PV.update ⟨"pv", 230, 50⟩ PV.initState).1.acL1Frequency = some 50
    ∧ (PV.update ⟨"pv", 230, 50⟩ { PV.initState with voltage := some 231 }).1.acVoltage
        = some 231 := by
  exact ⟨((claim8_pv_voltage_frequency ⟨"pv", 230, 50⟩ PV.initState).1 rfl).1,
    (claim8_pv_voltage_frequency ⟨"pv", 230, 50⟩ PV.initState).2.2.1 rfl,
    ((claim8_pv_voltage_frequency ⟨"pv", 230, 50⟩
      { PV.initState with voltage := some 231 }).2.1 231 rfl).1⟩

/-- C9: redelivering the identical valid measurement event leaves every
measurement field and every exposed entry at the value it had after the
first delivery; only the revision counter is bumped a second time. -/
theorem claim9_idempotent_redelivery :
    ∀ (s : Grid.State) (t : String) (v : ℚ), Grid.isMeasurementTopic t →
      Grid.onMessage (Grid.onMessage s t (some v)) t (some v)
        = { Grid.onMessage s t (some v) with
            updateIndex := bump (Grid.onMessage s t (some v)).updateIndex }
      ∧ (Grid.onMessage (Grid.onMessage s t (some v)) t (some v)).updateIndex
          = bump (bump s.updateIndex) := by
  intro s t v ht
  rcases ht with h | h | h | h | h | h <;> subst h
  · rw [Grid.onMessage_power, Grid.onMessage_power]
    exact ⟨Grid.update_update
      { s with power_sum := some v, power_l1 := some (v / 3),
               power_l2 := some (v / 3), power_l3 := some (v / 3) }, by simp⟩
  · rw [Grid.onMessage_p_l1, Grid.onMessage_p_l1]
    exact ⟨Grid.update_update { s with power_l1 := some v }, by simp⟩
  · rw [Grid.onMessage_p_l2, Grid.onMessage_p_l2]
    exact ⟨Grid.update_update { s with power_l2 := some v }, by simp⟩
  · rw [Grid.onMessage_p_l3, Grid.onMessage_p_l3]
    exact ⟨Grid.update_update { s with power_l3 := some v }, by simp⟩
  · rw [Grid.onMessage_180, Grid.onMessage_180]
    exact ⟨Grid.update_update { s with energy_180 := some (pyRound 3 (v / 1000)) }, by simp⟩
  · rw [Grid.onMessage_280, Grid.onMessage_280]
    exact ⟨Grid.update_update { s with energy_280 := some (pyRound 3 (v / 1000)) }, by simp⟩

/-- C9 witness at a concrete redelivered event. -/
theorem claim9_idempotent_redelivery_witness :
    Grid.onMessage (Grid.onMessage Grid.initState (Grid.MQTT_PATH ++ "/p_l1") (some 500))
        (Grid.MQTT_PATH ++ "/p_l1") (some 500)
      = { Grid.onMessage Grid.initState (Grid.MQTT_PATH ++ "/p_l1") (some 500) with
          updateIndex :=
            bump (Grid.onMessage Grid.initState (Grid.MQTT_PATH ++ "/p_l1") (some 500)).updateIndex }
    ∧ (Grid.onMessage (Grid.onMessage Grid.initState (Grid.MQTT_PATH ++ "/p_l1") (some 500))
        (Grid.MQTT_PATH ++ "/p_l1") (some 500)).updateIndex
      = bump (bump Grid.initState.updateIndex) := by
  exact claim9_idempotent_redelivery Grid.initState _ 500 (by decide)

/-- C10: an event whose topic matches no recognized mapping still triggers
a full publish pass in both services — the result is exactly `_update`
applied to the unchanged state, so the revision counter is bumped while
every measurement field is untouched and the payload is never parsed
(the result does not depend on it). -/
theorem claim10_unrecognized_topic :
    (∀ (s : Grid.State) (t : String) (p : Option ℚ), ¬ Grid.isMeasurementTopic t →
      Grid.onMessage s t p = Grid.update s
      ∧ (Grid.onMessage s t p).updateIndex = bump s.updateIndex
      ∧ (Grid.onMessage s t p).power_sum = s.power_sum
      ∧ (Grid.onMessage s t p).power_l1 = s.power_l1
      ∧ (Grid.onMessage s t p).power_l2 = s.power_l2
      ∧ (Grid.onMessage s t p).power_l3 = s.power_l3
      ∧ (Grid.onMessage s t p).energy_180 = s.energy_180
      ∧ (Grid.onMessage s t p).energy_280 = s.energy_280)
    ∧ (∀ (cfg : PV.Config) (s : PV.State) (t : String) (p : Option ℚ),
      ¬ PV.isMeasurementTopic cfg t →
      PV.onMessage cfg s t p = (PV.update cfg s).1
      ∧ (PV.onMessage cfg s t p).updateIndex = bump s.updateIndex
      ∧ (PV.onMessage cfg s t p).power = s.power
      ∧ (PV.onMessage cfg s t p).voltage = s.voltage
      ∧ (PV.onMessage cfg s t p).current = s.current
      ∧ (PV.onMessage cfg s t p).frequency = s.frequency
      ∧ (PV.onMessage cfg s t p).energy_180 = s.energy_180
      ∧ (PV.onMessage cfg s t p).energy_280 = s.energy_280) := by
  constructor
  · intro s t p h
    rw [Grid.onMessage_unrecognized s t p h]
    simp
  · intro cfg s t p h
    rw [PV.onMsg_unrecognized cfg s t p h, PV.update_fst]
    simp

/-- C10 witness at concrete unrecognized topics. -/
theorem claim10_unrecognized_topic_witness :
    Grid.onMessage Grid.initState (Grid.MQTT_PATH ++ "/bogus") none
      = Grid.update Grid.initState
    ∧ PV.onMessage ⟨"pv", 230, 50⟩ PV.initState ("pv" ++ "/bogus") (some 3)
      = (PV.update ⟨"pv", 230, 50⟩ PV.initState).1 := by
  exact ⟨(claim10_unrecognized_topic.1 Grid.initState _ none (by decide)).1,
    (claim10_unrecognized_topic.2 ⟨"pv", 230, 50⟩ PV.initState _ (some 3) (by decide)).1⟩

end Mqtt2Victron
